import Mathlib

/-!
Shallow embedding of `src/main.rs` of the volume-control utility.

Modelling conventions:

* Machine integers: `u32` values are modelled as `Nat` with explicit saturation
  at `2^32 - 1` where a Rust `as u32` cast occurs; `i32` as `Int` with explicit
  saturation at the `i32` bounds.
* `f64` arithmetic is modelled as exact rational arithmetic (`ℚ`).  This is
  faithful for every property stated below because the libpulse reference
  constants are `Volume::MUTED = 0` and `Volume::NORMAL = 0x10000 = 65536`:
  `volume_to_percentage` multiplies a `u32` by `100` (exact in `f64`, the
  product is below `2^39 < 2^53`) and divides by the power of two `65536`
  (exact), and the achievable percentages are multiples of `100 / 65536`,
  separated from the icon thresholds `100.0/3.0` and `100.0*2.0/3.0` by far
  more than the `< 2^-40` error of rounding those thresholds to `f64`.
  The Rust casts `as u32` / `as i32` (saturating truncation toward zero),
  `f64::clamp`, `f64::round` (half away from zero) and the `{:.0}` display
  rounding (half to even) are modelled explicitly.
* Fallible calls return `Except`; the asynchronous daemon interaction of
  `run`/`run_until` is modelled by an explicit trace of event-loop iteration
  results, with `std::process::exit` as a dedicated outcome constructor.
-/

namespace VolumeControl

/-- libpulse constant `Volume::MUTED` (`PA_VOLUME_MUTED = 0`). -/
def VOLUME_MUTED : Nat := 0

/-- libpulse constant `Volume::NORMAL` (`PA_VOLUME_NORM = 0x10000`). -/
def VOLUME_NORM : Nat := 65536

/-- `u32::MAX`. -/
def U32_MAX : Nat := 4294967295

/-- Rust `as u32` applied to an `f64` (here an exact `ℚ`): truncation toward
zero, saturating at the `u32` range (negative values become `0`). -/
def rustF64ToU32 (x : ℚ) : Nat := min U32_MAX (Int.toNat (Int.floor x))

/-- Rust `as i32` applied to an `f64`: truncation toward zero, saturating at
the `i32` range. -/
def rustF64ToI32 (x : ℚ) : Int :=
  max (-2147483648) (min 2147483647 (if 0 ≤ x then Int.floor x else Int.ceil x))

/-- Rust `f64::clamp(lo, hi)`. -/
def rustClamp (x lo hi : ℚ) : ℚ := if x < lo then lo else if x > hi then hi else x

/-- Rust `f64::round`: rounds half away from zero. -/
def rustRound (x : ℚ) : Int :=
  if 0 ≤ x then Int.floor (x + 1/2) else Int.ceil (x - 1/2)

/-- Rounding used by Rust float `Display` with precision 0 (`{:.0}`):
round to nearest, ties to even. -/
def roundHalfEven (x : ℚ) : Int :=
  let f := Int.floor x
  let r := x - f
  if r < 1/2 then f else if 1/2 < r then f + 1 else if 2 ∣ f then f else f + 1

/-- `volume_to_percentage` (src/main.rs lines 169-172): convert a device-native
volume to a percentage. -/
def volume_to_percentage (volume : Nat) : ℚ :=
  let range : ℚ := (VOLUME_NORM : ℚ) - (VOLUME_MUTED : ℚ)
  ((volume : ℚ) - (VOLUME_MUTED : ℚ)) * 100 / range

/-- `percentage_to_volume` (src/main.rs lines 175-178): convert a percentage to
a device-native volume (final `as u32` cast truncates). -/
def percentage_to_volume (factor : ℚ) : Nat :=
  let range : ℚ := (VOLUME_NORM : ℚ) - (VOLUME_MUTED : ℚ)
  rustF64ToU32 ((VOLUME_MUTED : ℚ) + factor * range / 100)

/-- `map_volumes` (src/main.rs lines 181-187): apply `action` to every channel
volume, as a percentage, clamping the result to `[0, 125]` before converting
back to the native unit.  The in-place mutation of the Rust code is rendered
functionally. -/
def map_volumes (volumes : List Nat) (action : ℚ → ℚ) : List Nat :=
  volumes.map fun v =>
    percentage_to_volume (rustClamp (action (volume_to_percentage v)) 0 125)

/-- The `Volumes` struct (src/main.rs lines 190-195); `ChannelVolumes` is a
small ordered collection of native `u32` volumes, modelled as `List Nat`. -/
structure Volumes where
  muted : Bool
  channels : List Nat
deriving DecidableEq, Repr

/-- The `VolumeCommand` subcommand enum (src/main.rs lines 61-86). -/
inductive VolumeCommand where
  | up (value : ℚ)
  | down (value : ℚ)
  | set (value : ℚ)
  | toggleMute
  | mute
  | unmute
deriving DecidableEq, Repr

/-- `apply_volume_command` (src/main.rs lines 145-166). -/
def apply_volume_command (volumes : Volumes) (command : VolumeCommand) : Volumes :=
  match command with
  | .up value => { volumes with channels := map_volumes volumes.channels fun x => x + value }
  | .down value => { volumes with channels := map_volumes volumes.channels fun x => x - value }
  | .set value => { volumes with channels := map_volumes volumes.channels fun _ => value }
  | .mute => { volumes with muted := true }
  | .unmute => { volumes with muted := false }
  | .toggleMute => { volumes with muted := !volumes.muted }

/-- `ChannelVolumes::max` (libpulse `pa_cvolume_max`): the largest channel
volume, `PA_VOLUME_MUTED = 0` when there are no channels. -/
def channelsMax (channels : List Nat) : Nat := channels.foldl max 0

/-- The data attached to the `notify_rust::Notification` built by
`show_notification`: summary text, icon name, notification id and the
`CustomInt "value"` hint. -/
structure NotificationData where
  summary : String
  icon : String
  id : Nat
  hint : Int
deriving DecidableEq, Repr

/-- `show_notification` (src/main.rs lines 395-417): build the notification
from the post-command state.  `{max_volume:.0}` in the summary uses Rust float
display rounding (ties to even); the hint uses `f64::round` then `as i32`.
The delivery attempt (`notification.show()`) is modelled separately in
`run_output_command`: its error is logged and discarded (`.ok()`), so this
function returns the notification data unconditionally. -/
def show_notification (name iconBase : String) (id : Nat) (volumes : Volumes) :
    NotificationData :=
  let max_volume := volume_to_percentage (channelsMax volumes.channels)
  { summary :=
      if volumes.muted then
        name ++ ": muted (" ++ toString (roundHalfEven max_volume) ++ "%)"
      else
        name ++ ": " ++ toString (roundHalfEven max_volume) ++ "%"
    icon :=
      if volumes.muted then
        iconBase ++ "-muted"
      else if max_volume ≤ 100 / 3 then
        iconBase ++ "-low"
      else if max_volume < 100 * 2 / 3 then
        iconBase ++ "-medium"
      else
        iconBase ++ "-high"
    id := id
    hint := rustF64ToI32 (rustRound max_volume) }

/-! ### Event loop (`run_until` and `run`)

`Mainloop::iterate(true)` returns one of `Err(PAErr)`, `Quit(Retval)` or
`Success(n)`.  A concrete execution of the loop is determined by the sequence
of iteration results the daemon delivers, together with (for `run_until`) the
value of the condition after each iteration and (for `run`) the content of the
result slot observed at the top of each pass.  We embed the loops as functions
of such traces.  `std::process::exit(code)` is a distinct outcome constructor,
shared by both loops so that "terminates the process" is expressible for
either. -/

/-- `libpulse_binding::mainloop::standard::IterateResult`. -/
inductive IterateResult where
  | err (e : Int)
  | quit (code : Int)
  | success (iterations : Nat)
deriving DecidableEq, Repr

/-- Outcome of one of the two loop functions: a normal return of `Ok`, a
normal return of `Err` (a `PAErr` code), a `std::process::exit(code)`, or
divergence (the trace runs out: the real loop would keep blocking). -/
inductive LoopOutcome (T : Type) where
  | ret (value : T)
  | retErr (e : Int)
  | procExit (code : Int)
  | diverge
deriving DecidableEq, Repr

/-- `run_until` (src/main.rs lines 348-367): iterate the main loop until the
condition holds.  Each trace entry is one loop pass: the `iterate(true)`
result and the condition value checked after it.  On `Quit(code)` it returns
`Ok(Some(code))` — a normal return, not a process exit. -/
def run_until : List (IterateResult × Bool) → LoopOutcome (Option Int)
  | [] => .diverge
  | (step, cond) :: rest =>
    match step with
    | .err e => .retErr e
    | .quit code => .ret (some code)
    | .success _ => if cond then .ret none else run_until rest

/-- `run` (src/main.rs lines 370-392): iterate the main loop until the result
slot holds a value.  Each trace entry is one loop pass: the slot content seen
at the top of the loop, then the `iterate(true)` result.  On `Quit(code)` it
calls `std::process::exit(code.0)`. -/
def run {T : Type} : List (Option T × IterateResult) → LoopOutcome T
  | [] => .diverge
  | (slot, step) :: rest =>
    match slot with
    | some value => .ret value
    | none =>
      match step with
      | .err e => .retErr e
      | .quit code => .procExit code
      | .success _ => run rest

/-! ### Command dispatch and exit status

`main` calls `do_main`; `std::process::exit(1)` on `Err(())`, implicit exit
status 0 otherwise.  The daemon's and notification service's behaviour is
abstracted as an oracle giving the result of each external call. -/

/-- The delivery step at the end of `show_notification` (src/main.rs lines
414-416): `notification.show().map_err(|e| log::warn!(...)).ok()`.  A delivery
failure is logged at warning level and turned into `none`; the expression's
value is discarded, so no error ever reaches the caller. -/
def deliver_notification (showRes : Except Int Unit) : Option Unit :=
  match showRes with
  | .ok v => some v
  | .error _ => none

/-- Results of the external calls a `run_output_command`/`run_input_command`
invocation performs: the volume query, the two mutations, and the outcome of
the desktop-notification delivery attempt. -/
structure DaemonOracle where
  getRes : Except Int Volumes
  setVolumesRes : Except Int Unit
  setMutedRes : Except Int Unit
  notifyRes : Except Int Unit
deriving Repr

/-- `run_output_command` (src/main.rs lines 113-127): query, apply the
command, write back volumes and mute flag, then show a notification.  Each
external failure is logged and mapped to `Err(())`; the notification delivery
result (`oracle.notifyRes`) is logged and discarded by
`deliver_notification`, never escalated. -/
def run_output_command (oracle : DaemonOracle) (command : VolumeCommand) :
    Except Unit Unit :=
  match oracle.getRes with
  | .error _ => Except.error ()
  | .ok volumes =>
    let volumes := apply_volume_command volumes command
    match oracle.setVolumesRes with
    | .error _ => Except.error ()
    | .ok _ =>
      match oracle.setMutedRes with
      | .error _ => Except.error ()
      | .ok _ =>
        let _ := show_notification "Volume" "audio-volume" 1236139783 volumes
        let _ := deliver_notification oracle.notifyRes
        Except.ok ()

/-- `run_input_command` (src/main.rs lines 130-142): identical structure to
`run_output_command` with the input device and microphone notification. -/
def run_input_command (oracle : DaemonOracle) (command : VolumeCommand) :
    Except Unit Unit :=
  match oracle.getRes with
  | .error _ => Except.error ()
  | .ok volumes =>
    let volumes := apply_volume_command volumes command
    match oracle.setVolumesRes with
    | .error _ => Except.error ()
    | .ok _ =>
      match oracle.setMutedRes with
      | .error _ => Except.error ()
      | .ok _ =>
        let _ := show_notification "Microphone" "microphone-sensitivity" 1236139784 volumes
        let _ := deliver_notification oracle.notifyRes
        Except.ok ()

/-- The top-level `Command` enum (src/main.rs lines 46-58). -/
inductive Command where
  | output (command : VolumeCommand)
  | input (command : VolumeCommand)
deriving DecidableEq, Repr

/-- `do_main` (src/main.rs lines 94-110): initialize the main loop, connect,
then dispatch the command.  Main-loop creation (`Mainloop::new`, an `Option`)
and the connection bootstrap (`connect`, a `Result`) are abstracted by their
results. -/
def do_main (mainLoopInit : Option Unit) (connectRes : Except Unit Unit)
    (command : Command) (oracle : DaemonOracle) : Except Unit Unit :=
  match mainLoopInit with
  | none => Except.error ()
  | some _ =>
    match connectRes with
    | .error e => Except.error e
    | .ok _ =>
      match command with
      | .output c => run_output_command oracle c
      | .input c => run_input_command oracle c

/-- `main` (src/main.rs lines 88-92): exit status 1 when `do_main` fails,
0 otherwise. -/
def mainExitStatus (r : Except Unit Unit) : Nat :=
  match r with
  | .ok _ => 0
  | .error _ => 1

/-- Icon selection as the spec's sentence literally reads, for claim C4:
thresholds written as the literal decimals 33.33 and 66.67.
Modelled from the spec: "muted → muted icon; else level ≤ 33.33% → low;
level < 66.67% → medium; else → high". -/
def specLiteralIcon (iconBase : String) (muted : Bool) (level : ℚ) : String :=
  if muted then
    iconBase ++ "-muted"
  else if level ≤ 3333 / 100 then
    iconBase ++ "-low"
  else if level < 6667 / 100 then
    iconBase ++ "-medium"
  else
    iconBase ++ "-high"

/-! ### Helper lemmas -/

/-- Closed form of the forward conversion with the libpulse constants
substituted. -/
theorem volume_to_percentage_eq (v : Nat) :
    volume_to_percentage v = (v : ℚ) * 100 / 65536 := by
  simp [volume_to_percentage, VOLUME_NORM, VOLUME_MUTED]

/-- The percentage-to-native conversion is an exact inverse of the
native-to-percentage conversion on `u32` values: the value fed to the final
truncating cast is already the integer `v`. -/
theorem percentage_to_volume_roundtrip (v : Nat) (h : v ≤ U32_MAX) :
    percentage_to_volume (volume_to_percentage v) = v := by
  have harg : (VOLUME_MUTED : ℚ) + volume_to_percentage v *
      ((VOLUME_NORM : ℚ) - (VOLUME_MUTED : ℚ)) / 100 = (v : ℚ) := by
    simp only [volume_to_percentage, VOLUME_NORM, VOLUME_MUTED]
    push_cast
    ring
  simp only [percentage_to_volume, rustF64ToU32, harg, Int.floor_natCast,
    Int.toNat_natCast]
  exact min_eq_right h

/-- A fold of `max` over a list of bounded values stays bounded. -/
theorem foldl_max_le {l : List Nat} {a bound : Nat} (ha : a ≤ bound)
    (h : ∀ v ∈ l, v ≤ bound) : l.foldl max a ≤ bound := by
  induction l generalizing a with
  | nil => simpa using ha
  | cons x xs ih =>
    exact ih (max_le ha (h x (by simp))) (fun v hv => h v (by simp [hv]))

/-! ### Claim theorems -/

/-- Claim C5: the mute, unmute and toggle-mute commands set only the boolean
mute flag (to `true`, `false`, and the negation respectively) and leave every
channel's volume level unchanged. -/
theorem c5_mute_commands_frame (s : Volumes) :
    (apply_volume_command s VolumeCommand.mute).channels = s.channels ∧
    (apply_volume_command s VolumeCommand.unmute).channels = s.channels ∧
    (apply_volume_command s VolumeCommand.toggleMute).channels = s.channels ∧
    (apply_volume_command s VolumeCommand.mute).muted = true ∧
    (apply_volume_command s VolumeCommand.unmute).muted = false ∧
    (apply_volume_command s VolumeCommand.toggleMute).muted = !s.muted :=
  ⟨rfl, rfl, rfl, rfl, rfl, rfl⟩

/-- Claim C6: applying toggle-mute twice returns the mute flag to its original
value (toggle is an involution on the mute flag). -/
theorem c6_toggle_mute_involution (s : Volumes) :
    (apply_volume_command (apply_volume_command s VolumeCommand.toggleMute)
        VolumeCommand.toggleMute).muted = s.muted := by
  simp [apply_volume_command]

/-- Claim C10: the volume-arithmetic commands up, down and set leave the
boolean mute flag unchanged. -/
theorem c10_volume_commands_preserve_mute (s : Volumes) (x : ℚ) :
    (apply_volume_command s (VolumeCommand.up x)).muted = s.muted ∧
    (apply_volume_command s (VolumeCommand.down x)).muted = s.muted ∧
    (apply_volume_command s (VolumeCommand.set x)).muted = s.muted :=
  ⟨rfl, rfl, rfl⟩

/-- Claim C3 counterexample: in the connection-bootstrap loop `run_until`, a
`Quit(3)` delivered by the event loop does NOT terminate the process: the
function returns normally with `Ok(Some(3))` instead of exiting with code 3. -/
theorem c3_counterexample :
    run_until [(IterateResult.quit 3, false)] = LoopOutcome.ret (some 3) ∧
    run_until [(IterateResult.quit 3, false)] ≠ LoopOutcome.procExit 3 := by
  refine ⟨rfl, ?_⟩
  intro h
  exact absurd h (by simp [run_until])

/-- Claim C3 (amended): a forced-quit result from an event-loop tick makes the
blocking adapter `run` terminate the process immediately with the provided
exit code, after any number of uneventful ticks; the bootstrap loop
`run_until`, by contrast, returns `Ok(Some(code))` normally. -/
theorem c3_quit_handling (T : Type) (code : Int) (counts counts2 : List Nat)
    (b : Bool) (rest : List (Option T × IterateResult))
    (rest2 : List (IterateResult × Bool)) :
    run ((counts.map fun n => ((none : Option T), IterateResult.success n)) ++
        (none, IterateResult.quit code) :: rest) = LoopOutcome.procExit code ∧
    run_until ((counts2.map fun n => (IterateResult.success n, false)) ++
        (IterateResult.quit code, b) :: rest2) = LoopOutcome.ret (some code) := by
  constructor
  · induction counts with
    | nil => rfl
    | cons n ns ih => simpa [run] using ih
  · induction counts2 with
    | nil => rfl
    | cons n ns ih => simpa [run_until] using ih

/-- Claim C7: the process exit status is 0 exactly when every fallible step
(main-loop initialization, connection, the volume query and both mutations)
succeeded, and 1 otherwise; it is always 0 or 1. -/
theorem c7_exit_status (init : Option Unit) (conn : Except Unit Unit)
    (command : Command) (oracle : DaemonOracle) :
    (mainExitStatus (do_main init conn command oracle) = 0 ∨
      mainExitStatus (do_main init conn command oracle) = 1) ∧
    (mainExitStatus (do_main init conn command oracle) = 0 ↔
      (init = some () ∧ conn = Except.ok () ∧
        (∃ v, oracle.getRes = Except.ok v) ∧
        oracle.setVolumesRes = Except.ok () ∧
        oracle.setMutedRes = Except.ok ())) := by
  obtain ⟨g, sv, sm, nr⟩ := oracle
  cases init <;> cases conn <;> cases command <;> cases g <;> cases sv <;>
    cases sm <;>
    simp [do_main, run_output_command, run_input_command, mainExitStatus]

/-- Claim C9: a notification-delivery failure is swallowed
(`deliver_notification` maps every error to `none`, returning no error to its
caller), and the result of a command run — hence the exit status — is
independent of whether the notification was delivered. -/
theorem c9_notification_failure_ignored (g : Except Int Volumes)
    (sv sm n₁ n₂ : Except Int Unit) (c : VolumeCommand) :
    (∀ e : Int, deliver_notification (Except.error e) = none) ∧
    run_output_command ⟨g, sv, sm, n₁⟩ c = run_output_command ⟨g, sv, sm, n₂⟩ c ∧
    run_input_command ⟨g, sv, sm, n₁⟩ c = run_input_command ⟨g, sv, sm, n₂⟩ c ∧
    mainExitStatus (do_main (some ()) (Except.ok ()) (Command.output c)
        ⟨g, sv, sm, n₁⟩)
      = mainExitStatus (do_main (some ()) (Except.ok ()) (Command.output c)
        ⟨g, sv, sm, n₂⟩) := by
  refine ⟨fun e => rfl, ?_, ?_, ?_⟩ <;>
    cases g <;> cases sv <;> cases sm <;>
    simp [run_output_command, run_input_command, do_main, mainExitStatus]

/-- Claim C2: percentage-to-native conversion inverts native-to-percentage
conversion on every `u32` device-native value — here in fact exactly, which is
within the claimed integer-truncation tolerance of 1 native unit — and the
forward conversion equals `(native - MUTED) * 100 / (NORMAL - MUTED)`. -/
theorem c2_conversion_round_trip (v : Nat) (h : v ≤ U32_MAX) :
    volume_to_percentage v
      = ((v : ℚ) - (VOLUME_MUTED : ℚ)) * 100 / ((VOLUME_NORM : ℚ) - (VOLUME_MUTED : ℚ)) ∧
    percentage_to_volume (volume_to_percentage v) = v ∧
    ((percentage_to_volume (volume_to_percentage v) : ℤ) - (v : ℤ)).natAbs ≤ 1 := by
  refine ⟨rfl, percentage_to_volume_roundtrip v h, ?_⟩
  rw [percentage_to_volume_roundtrip v h]
  simp

/-- Claim C2 witness: the round trip at the concrete native value 54321. -/
theorem c2_conversion_round_trip_witness :
    percentage_to_volume (volume_to_percentage 54321) = 54321 :=
  (c2_conversion_round_trip 54321 (by norm_num [U32_MAX])).2.1

/-- Claim C1: up/down/set replace each channel independently by the native
image of `clamp(old% + X, 0, 125)`, `clamp(old% - X, 0, 125)` and
`clamp(X, 0, 125)` respectively, and for X outside `[0, 125]` the percentage
stored by `set X` reads back as exactly 0 or exactly 125. -/
theorem c1_volume_command_clamps (s : Volumes) (x : ℚ) :
    (apply_volume_command s (VolumeCommand.up x)).channels
      = s.channels.map (fun v =>
          percentage_to_volume (rustClamp (volume_to_percentage v + x) 0 125)) ∧
    (apply_volume_command s (VolumeCommand.down x)).channels
      = s.channels.map (fun v =>
          percentage_to_volume (rustClamp (volume_to_percentage v - x) 0 125)) ∧
    (apply_volume_command s (VolumeCommand.set x)).channels
      = s.channels.map (fun _ => percentage_to_volume (rustClamp x 0 125)) ∧
    ((x < 0 ∨ 125 < x) →
      (apply_volume_command s (VolumeCommand.set x)).channels.map volume_to_percentage
          = s.channels.map (fun _ => rustClamp x 0 125) ∧
      (rustClamp x 0 125 = 0 ∨ rustClamp x 0 125 = 125)) := by
  refine ⟨rfl, rfl, rfl, fun h => ?_⟩
  have hc : rustClamp x 0 125 = 0 ∨ rustClamp x 0 125 = 125 := by
    rcases h with h | h
    · left
      simp [rustClamp, h]
    · right
      have h0 : ¬ x < 0 := by linarith
      simp [rustClamp, h0, h]
  refine ⟨?_, hc⟩
  have hround : volume_to_percentage (percentage_to_volume (rustClamp x 0 125))
      = rustClamp x 0 125 := by
    rcases hc with hc | hc <;> rw [hc]
    · norm_num [volume_to_percentage, percentage_to_volume, rustF64ToU32,
        VOLUME_MUTED, VOLUME_NORM, U32_MAX]
    · norm_num [volume_to_percentage, percentage_to_volume, rustF64ToU32,
        VOLUME_MUTED, VOLUME_NORM, U32_MAX]
      rw [show Int.toNat 81920 = 81920 from rfl]
      norm_num
  simp only [apply_volume_command, map_volumes, List.map_map, Function.comp_def,
    hround]

/-- Claim C1 witness: `set 130` on a one-channel state stores a percentage
that reads back as exactly `clamp(130, 0, 125) = 125`. -/
theorem c1_volume_command_clamps_witness :
    (apply_volume_command ⟨false, [32768]⟩ (VolumeCommand.set 130)).channels.map
        volume_to_percentage = [rustClamp 130 0 125] ∧
    (rustClamp (130 : ℚ) 0 125 = 0 ∨ rustClamp (130 : ℚ) 0 125 = 125) :=
  (c1_volume_command_clamps ⟨false, [32768]⟩ 130).2.2.2 (Or.inr (by norm_num))

/-- Claim C4 counterexample: the post-command state reached by `set 33.333`
from a silent one-channel state stores native volume 21845, whose percentage
33.3328...% is strictly above the literal 33.33% threshold, so the claim's
literal reading selects the "medium" icon; the code selects "low" (its actual
threshold is `100.0 / 3.0` = 33.3333...%). -/
theorem c4_icon_threshold_counterexample :
    apply_volume_command ⟨false, [0]⟩ (VolumeCommand.set (33333 / 1000))
        = ⟨false, [21845]⟩ ∧
    (3333 / 100 : ℚ) < volume_to_percentage 21845 ∧
    (show_notification "Volume" "audio-volume" 1236139783 ⟨false, [21845]⟩).icon
        = "audio-volume-low" ∧
    specLiteralIcon "audio-volume" false (volume_to_percentage 21845)
        = "audio-volume-medium" := by
  refine ⟨?_, ?_, ?_, ?_⟩
  · have : percentage_to_volume (rustClamp (33333 / 1000) 0 125) = 21845 := by
      norm_num [percentage_to_volume, rustClamp, rustF64ToU32,
        VOLUME_MUTED, VOLUME_NORM, U32_MAX]
      rfl
    simp [apply_volume_command, map_volumes, this]
  · norm_num [volume_to_percentage, VOLUME_MUTED, VOLUME_NORM]
  · have hch : channelsMax [21845] = 21845 := rfl
    have hlow : volume_to_percentage 21845 ≤ 100 / 3 := by
      norm_num [volume_to_percentage, VOLUME_MUTED, VOLUME_NORM]
    simp [show_notification, hch, hlow]
  · have h1 : ¬ volume_to_percentage 21845 ≤ 3333 / 100 := by
      norm_num [volume_to_percentage, VOLUME_MUTED, VOLUME_NORM]
    have h2 : volume_to_percentage 21845 < 6667 / 100 := by
      norm_num [volume_to_percentage, VOLUME_MUTED, VOLUME_NORM]
    simp [specLiteralIcon, h1, h2]

/-- Claim C4 (amended): the icon is selected from the percentage of the
loudest channel with the exact thresholds of the code: muted → muted icon;
else level ≤ 100/3 % (= 33.33...%) → low; else level < 200/3 % (= 66.66...%)
→ medium; else high; in particular a level of exactly the literal 33.33%
selects the low icon. -/
theorem c4_icon_thresholds (name iconBase : String) (id : Nat) (muted : Bool)
    (channels : List Nat) :
    (muted = true →
      (show_notification name iconBase id ⟨muted, channels⟩).icon
        = iconBase ++ "-muted") ∧
    (muted = false → volume_to_percentage (channelsMax channels) ≤ 100 / 3 →
      (show_notification name iconBase id ⟨muted, channels⟩).icon
        = iconBase ++ "-low") ∧
    (muted = false → 100 / 3 < volume_to_percentage (channelsMax channels) →
      volume_to_percentage (channelsMax channels) < 100 * 2 / 3 →
      (show_notification name iconBase id ⟨muted, channels⟩).icon
        = iconBase ++ "-medium") ∧
    (muted = false → 100 * 2 / 3 ≤ volume_to_percentage (channelsMax channels) →
      (show_notification name iconBase id ⟨muted, channels⟩).icon
        = iconBase ++ "-high") := by
  refine ⟨fun hm => ?_, fun hm hle => ?_, fun hm h1 h2 => ?_, fun hm h2 => ?_⟩ <;>
    subst hm
  · simp [show_notification]
  · simp [show_notification, hle]
  · simp [show_notification, not_le.mpr h1, h2]
  · have h1 : ¬ volume_to_percentage (channelsMax channels) ≤ 100 / 3 := by
      rw [not_le]
      calc (100 / 3 : ℚ) < 100 * 2 / 3 := by norm_num
        _ ≤ _ := h2
    simp [show_notification, h1, not_lt.mpr h2]

/-- Claim C4 witness: at the muted-false one-channel state with native volume
21845 (level 33.3328...% ≤ 100/3 %), the low icon is selected. -/
theorem c4_icon_thresholds_witness :
    (show_notification "Volume" "audio-volume" 1236139783 ⟨false, [21845]⟩).icon
      = "audio-volume" ++ "-low" :=
  (c4_icon_thresholds "Volume" "audio-volume" 1236139783 false [21845]).2.1 rfl
    (by norm_num [volume_to_percentage, channelsMax, VOLUME_MUTED, VOLUME_NORM])

/-- Claim C8: the numeric "value" hint of the notification equals the
percentage of the loudest channel rounded to the nearest integer (Rust
`f64::round`, half away from zero, agrees with `round` on the nonnegative
percentages involved, and the `as i32` cast never saturates for `u32`
channel volumes). -/
theorem c8_level_hint (name iconBase : String) (id : Nat) (volumes : Volumes)
    (h : ∀ v ∈ volumes.channels, v ≤ U32_MAX) :
    (show_notification name iconBase id volumes).hint
      = round (volume_to_percentage (channelsMax volumes.channels)) := by
  have hm : channelsMax volumes.channels ≤ U32_MAX := foldl_max_le (Nat.zero_le _) h
  set q := volume_to_percentage (channelsMax volumes.channels) with hq
  have hq0 : 0 ≤ q := by
    rw [hq, volume_to_percentage_eq]
    positivity
  have hqub : q ≤ 6553600 := by
    rw [hq, volume_to_percentage_eq, div_le_iff₀ (by norm_num : (0 : ℚ) < 65536)]
    have hcast : (channelsMax volumes.channels : ℚ) ≤ 4294967295 := by
      rw [U32_MAX] at hm
      exact_mod_cast hm
    linarith
  have hk : rustRound q = round q := by
    rw [rustRound, if_pos hq0, round_eq]
  have hk0 : 0 ≤ round q := by
    rw [round_eq]
    exact Int.floor_nonneg.mpr (by linarith)
  have hkub : round q ≤ 2147483647 := by
    rw [round_eq]
    calc ⌊q + 1 / 2⌋ ≤ ⌊(6553601 : ℚ)⌋ := Int.floor_le_floor (by linarith)
      _ ≤ 2147483647 := by norm_num
  show rustF64ToI32 ((rustRound q : ℤ) : ℚ) = round q
  rw [hk, rustF64ToI32, if_pos (by exact_mod_cast hk0), Int.floor_intCast,
    min_eq_right hkub, max_eq_right (by linarith)]

/-- Claim C8 witness: at the one-channel state with native volume 32768 the
hint equals the rounded percentage (50%). -/
theorem c8_level_hint_witness :
    (show_notification "Volume" "audio-volume" 1236139783 ⟨false, [32768]⟩).hint
      = round (volume_to_percentage (channelsMax [32768])) :=
  c8_level_hint "Volume" "audio-volume" 1236139783 ⟨false, [32768]⟩
    (by norm_num [U32_MAX])

end VolumeControl
